import Mathlib

/-!
Shallow embedding of the szurubooru search executor
(`src/server/szurubooru/search/executor.py`): sort-direction resolution
(`_get_direction`), error-message formatting (`_format_dict_keys`), token
application (`_prepare_db_query`), pagination and counting
(`Executor.execute`), and the result cache protocol the executor relies on.

SQLAlchemy queries are modelled as `DBQuery`: the list of rows matched by the
accumulated predicate, the accumulated ORDER BY keys, the lazy-load option
flag, and the OFFSET/LIMIT values; `DBQuery.all` executes the query by sorting
lexicographically over the ORDER BY keys (stably, via insertion sort) and then
applying offset and limit.  Python exceptions are modelled as `Except PyErr`,
distinguishing `SearchError` from the `assert False` in `_get_direction`.
-/

namespace Szurubooru

variable {α β : Type}

/-- Modelled from the spec: the `szurubooru.search.tokens` module is not under
`src/`.  Section 3 of the spec gives `SortDirection` as an enum of four values
(the source refers to them as `tokens.SortToken.SORT_ASC`, `SORT_DESC`,
`SORT_DEFAULT` and `SORT_NEGATED_DEFAULT`). -/
inductive SortDirection where
  | Ascending
  | Descending
  | Default
  | NegatedDefault
deriving DecidableEq, Repr

/-- Embeds `_get_direction` (executor.py lines 9-18).  The `assert False`
fallthrough is modelled as `none`; every other path returns the resolved
direction. -/
def get_direction (direction default_direction : SortDirection) :
    Option SortDirection :=
  if direction = SortDirection.Default then
    some default_direction
  else if direction = SortDirection.NegatedDefault then
    if default_direction = SortDirection.Ascending then
      some SortDirection.Descending
    else if default_direction = SortDirection.Descending then
      some SortDirection.Ascending
    else
      none
  else
    some direction

/-- A free-text query term with no field name (spec section 3). -/
structure AnonymousToken where
  criterion : String
  negated : Bool
deriving DecidableEq, Repr

/-- A `field:value` query term (spec section 3). -/
structure NamedToken where
  name : String
  criterion : String
  negated : Bool
deriving DecidableEq, Repr

/-- A query term selecting a predefined flag filter (spec section 3). -/
structure SpecialToken where
  value : String
  negated : Bool
deriving DecidableEq, Repr

/-- A query term requesting ordering by a named column (spec section 3). -/
structure SortToken where
  name : String
  direction : SortDirection
  negated : Bool
deriving DecidableEq, Repr

/-- The parser's output (`search_query` in executor.py): four ordered
sequences of tokens. -/
structure SearchQuery where
  anonymous_tokens : List AnonymousToken
  named_tokens : List NamedToken
  special_tokens : List SpecialToken
  sort_tokens : List SortToken
deriving DecidableEq, Repr

/-- One ORDER BY clause: a column reference (modelled as a projection of the
entity into a comparable value) together with the direction chosen by
`column.asc()` or `column.desc()`. -/
inductive ColumnOrder (α : Type) where
  | asc (column : α → Int)
  | desc (column : α → Int)

/-- Model of a SQLAlchemy query object as manipulated by executor.py. -/
structure DBQuery (α : Type) where
  rows : List α
  order : List (ColumnOrder α)
  lazyLoad : Bool
  off : Int
  lim : Option Int

/-- Embeds `query.options(sqlalchemy.orm.lazyload('*'))` (lines 42 and 50):
a row-fetch hint that has no effect on which rows match. -/
def DBQuery.optionsLazyload (q : DBQuery α) : DBQuery α :=
  { q with lazyLoad := true }

/-- Embeds `query.offset(n)` (line 45). -/
def DBQuery.offset (q : DBQuery α) (n : Int) : DBQuery α :=
  { q with off := n }

/-- Embeds `query.limit(n)` (line 46). -/
def DBQuery.limit (q : DBQuery α) (n : Int) : DBQuery α :=
  { q with lim := some n }

/-- Embeds `query.order_by(clause)` (lines 113 and 115): SQLAlchemy appends
the clause after any existing ordering, so earlier clauses stay primary. -/
def DBQuery.orderBy (q : DBQuery α) (k : ColumnOrder α) : DBQuery α :=
  { q with order := q.order ++ [k] }

/-- Comparison of two entities under one ORDER BY clause. -/
def ColumnOrder.cmp : ColumnOrder α → α → α → Ordering
  | ColumnOrder.asc column, x, y => compare (column x) (column y)
  | ColumnOrder.desc column, x, y => compare (column y) (column x)

/-- Lexicographic comparison over a list of ORDER BY clauses: the first clause
is the primary key; later clauses only break ties of the earlier ones. -/
def cmpKeys : List (ColumnOrder α) → α → α → Ordering
  | [], _, _ => Ordering.eq
  | k :: ks, x, y =>
    match k.cmp x y with
    | Ordering.eq => cmpKeys ks x y
    | o => o

/-- Embeds `query.all()` (line 47): sort by the accumulated ORDER BY keys
(with no keys, rows keep their stored order), then apply OFFSET and LIMIT. -/
def DBQuery.all (q : DBQuery α) : List α :=
  let sorted := List.insertionSort
    (fun x y => cmpKeys q.order x y ≠ Ordering.gt) q.rows
  let paged := sorted.drop q.off.toNat
  match q.lim with
  | none => paged
  | some l => paged.take l.toNat

/-- Embeds lines 52-56: `.statement.with_only_columns([count()]).order_by(None)`
executed to a scalar - the number of rows matched by the query's predicate;
the ordering is cleared and pagination was never applied on this path. -/
def countScalar (q : DBQuery α) : Nat :=
  q.rows.length

/-- Python `dict` membership and subscription (`token.name in mapping`,
`mapping[token.name]`), with dicts modelled as association lists whose keys
are unique (spec section 3 invariant). -/
def dictLookup : List (String × β) → String → Option β
  | [], _ => none
  | (k, v) :: rest, key => if key = k then some v else dictLookup rest key

/-- Python `mapping.keys()`, in insertion order. -/
def dictKeys (source : List (String × β)) : List String :=
  source.map Prod.fst

/-- Lexicographic less-or-equal on character lists, by code point - the
order Python's `sorted` uses on `str` keys.  It agrees with Lean's `≤` on
`String` (see `charListLe_iff_le`), but unlike Lean's iterator-based `<` it
reduces inside the kernel. -/
def charListLe : List Char → List Char → Bool
  | [], _ => true
  | _ :: _, [] => false
  | a :: as, b :: bs =>
    if a < b then true
    else if b < a then false
    else charListLe as bs

/-- Lexicographic less-or-equal on strings, by code point. -/
def strLe (a b : String) : Bool :=
  charListLe a.data b.data

/-- Embeds `_format_dict_keys` (lines 6-7): `list(sorted(source.keys()))`.
Python's `sorted` is a stable comparison sort; it is modelled by insertion
sort over the code-point order. -/
def format_dict_keys (source : List (String × β)) : List String :=
  List.insertionSort (fun a b => strLe a b = true) (dictKeys source)

/-- Python `repr` of a string, as interpolated by `%r` - adequate for
identifier-like names with no quotes or escapes. -/
def pyRepr (s : String) : String :=
  "'" ++ s ++ "'"

/-- Python `repr` of a list of strings, as interpolated by `%r`. -/
def pyReprList (l : List String) : String :=
  "[" ++ String.intercalate ", " (l.map pyRepr) ++ "]"

/-- The message raised at line 80-81. -/
def anonymous_token_error_msg : String :=
  "Anonymous tokens are not valid in this context."

/-- The message raised at lines 87-90. -/
def unknown_named_token_msg (name : String) (available : List String) :
    String :=
  "Unknown named token: " ++ pyRepr name ++ ". Available named tokens: " ++
    pyReprList available ++ "."

/-- The message raised at lines 96-99. -/
def unknown_special_token_msg (value : String) (available : List String) :
    String :=
  "Unknown special token: " ++ pyRepr value ++
    ". Available special tokens: " ++ pyReprList available ++ "."

/-- The message raised at lines 106-109. -/
def unknown_sort_token_msg (name : String) (available : List String) :
    String :=
  "Unknown sort token: " ++ pyRepr name ++ ". Available sort tokens: " ++
    pyReprList available ++ "."

/-- The exceptions executor.py can raise: `errors.SearchError(msg)` and the
`AssertionError` from `assert False` in `_get_direction`. -/
inductive PyErr where
  | searchError (msg : String)
  | assertionError
deriving DecidableEq, Repr

/-- The capability contract (spec section 3): one instance per searchable
entity type.  The query factories are modelled by the queries they produce. -/
structure SearchConfig (α : Type) where
  anonymous_filter : Option (DBQuery α → String → Bool → DBQuery α)
  named_filters : List (String × (DBQuery α → String → Bool → DBQuery α))
  special_filters : List (String × (DBQuery α → Bool → DBQuery α))
  sort_columns : List (String × ((α → Int) × SortDirection))
  finalize_query : DBQuery α → DBQuery α
  create_filter_query : DBQuery α
  create_count_query : DBQuery α

/-- Embeds the anonymous-token loop of `_prepare_db_query` (lines 78-83). -/
def applyAnonymousTokens (cfg : SearchConfig α) :
    DBQuery α → List AnonymousToken → Except PyErr (DBQuery α)
  | q, [] => Except.ok q
  | q, token :: rest =>
    match cfg.anonymous_filter with
    | none => Except.error (PyErr.searchError anonymous_token_error_msg)
    | some f => applyAnonymousTokens cfg (f q token.criterion token.negated) rest

/-- Embeds the named-token loop of `_prepare_db_query` (lines 85-92). -/
def applyNamedTokens (cfg : SearchConfig α) :
    DBQuery α → List NamedToken → Except PyErr (DBQuery α)
  | q, [] => Except.ok q
  | q, token :: rest =>
    match dictLookup cfg.named_filters token.name with
    | none => Except.error (PyErr.searchError
        (unknown_named_token_msg token.name
          (format_dict_keys cfg.named_filters)))
    | some f => applyNamedTokens cfg (f q token.criterion token.negated) rest

/-- Embeds the special-token loop of `_prepare_db_query` (lines 94-101). -/
def applySpecialTokens (cfg : SearchConfig α) :
    DBQuery α → List SpecialToken → Except PyErr (DBQuery α)
  | q, [] => Except.ok q
  | q, token :: rest =>
    match dictLookup cfg.special_filters token.value with
    | none => Except.error (PyErr.searchError
        (unknown_special_token_msg token.value
          (format_dict_keys cfg.special_filters)))
    | some f => applySpecialTokens cfg (f q token.negated) rest

/-- Embeds the sort-token loop of `_prepare_db_query` (lines 103-115): on a
resolved direction that is neither `SORT_ASC` nor `SORT_DESC` the `if`/`elif`
chain adds no ORDER BY clause and the loop continues. -/
def applySortTokens (cfg : SearchConfig α) :
    DBQuery α → List SortToken → Except PyErr (DBQuery α)
  | q, [] => Except.ok q
  | q, token :: rest =>
    match dictLookup cfg.sort_columns token.name with
    | none => Except.error (PyErr.searchError
        (unknown_sort_token_msg token.name
          (format_dict_keys cfg.sort_columns)))
    | some (column, default_direction) =>
      match get_direction token.direction default_direction with
      | none => Except.error PyErr.assertionError
      | some direction =>
        let q' :=
          if direction = SortDirection.Ascending then
            q.orderBy (ColumnOrder.asc column)
          else if direction = SortDirection.Descending then
            q.orderBy (ColumnOrder.desc column)
          else q
        applySortTokens cfg q' rest

/-- Embeds `Executor._prepare_db_query` (lines 75-118): anonymous, named and
special tokens are applied in that order, sort tokens only when `use_sort`,
and `config.finalize_query` runs last. -/
def prepare_db_query (cfg : SearchConfig α) (db_query : DBQuery α)
    (search_query : SearchQuery) (use_sort : Bool) : Except PyErr (DBQuery α) :=
  match applyAnonymousTokens cfg db_query search_query.anonymous_tokens with
  | Except.error e => Except.error e
  | Except.ok q1 =>
    match applyNamedTokens cfg q1 search_query.named_tokens with
    | Except.error e => Except.error e
    | Except.ok q2 =>
      match applySpecialTokens cfg q2 search_query.special_tokens with
      | Except.error e => Except.error e
      | Except.ok q3 =>
        match (if use_sort then applySortTokens cfg q3 search_query.sort_tokens
               else Except.ok q3) with
        | Except.error e => Except.error e
        | Except.ok q4 => Except.ok (cfg.finalize_query q4)

/-- Modelled from the spec: the `szurubooru.search.parser` module is not under
`src/`.  Spec section 4.1: the query is whitespace-delimited into terms.  This
helper splits a character list at whitespace, discarding empty terms. -/
def splitWhitespaceAux : List Char → List Char → List (List Char)
  | [], acc => if acc.isEmpty then [] else [acc.reverse]
  | c :: cs, acc =>
    if c.isWhitespace then
      if acc.isEmpty then splitWhitespaceAux cs []
      else acc.reverse :: splitWhitespaceAux cs []
    else splitWhitespaceAux cs (c :: acc)

/-- Splits a character list at the first occurrence of `sep`, when present. -/
def splitFirst (sep : Char) : List Char → Option (List Char × List Char)
  | [] => none
  | c :: cs =>
    if c = sep then some ([], cs)
    else
      match splitFirst sep cs with
      | none => none
      | some (pre, post) => some (c :: pre, post)

/-- Modelled from the spec (section 4.1): a sort-token value encodes the
target column name and an optional direction suffix (after a comma); absence
of a suffix maps to `SortDirection.Default`. -/
def parseSortValue (value : List Char) : String × SortDirection :=
  match splitFirst ',' value with
  | some (column, tail) =>
    if String.mk tail = "asc" then (String.mk column, SortDirection.Ascending)
    else if String.mk tail = "desc" then
      (String.mk column, SortDirection.Descending)
    else (String.mk value, SortDirection.Default)
  | none => (String.mk value, SortDirection.Default)

/-- Modelled from the spec (section 4.1): a leading `-` marks negation; a term
of `name:value` shape produces a `NamedToken` (a `SortToken` when
`name = "sort"`, a `SpecialToken` when `name = "special"`); all other terms
produce `AnonymousTokens`.  Token order within each sequence is preserved. -/
def parseTerm (sq : SearchQuery) (term : List Char) : SearchQuery :=
  let negated := term.head? = some '-'
  let body := if negated then term.tail else term
  match splitFirst ':' body with
  | some (name, value) =>
    if String.mk name = "sort" then
      let (column, direction) := parseSortValue value
      { sq with sort_tokens := sq.sort_tokens ++ [⟨column, direction, negated⟩] }
    else if String.mk name = "special" then
      { sq with special_tokens := sq.special_tokens ++
          [⟨String.mk value, negated⟩] }
    else
      { sq with named_tokens := sq.named_tokens ++
          [⟨String.mk name, String.mk value, negated⟩] }
  | none =>
    { sq with anonymous_tokens := sq.anonymous_tokens ++
        [⟨String.mk body, negated⟩] }

/-- Modelled from the spec: `Parser.parse` (section 4.1), pure and total -
it never fails; unresolvable tokens are rejected later by the Executor. -/
def parse (text : String) : SearchQuery :=
  (splitWhitespaceAux text.data []).foldl parseTerm ⟨[], [], [], []⟩

/-- The composite cache key built at line 35:
`(id(self.config), query_text, page, page_size)`.  `id(self.config)` is
modelled by the executor's `config_id` tag; Python guarantees distinct ids
for distinct live objects. -/
structure CacheKey where
  config_id : Nat
  query_text : String
  page : Int
  page_size : Int
deriving DecidableEq, Repr

/-- Modelled from the spec: the `szurubooru.func.cache` module is not under
`src/`.  Spec section 4.4 gives the contract `has(key)`, `get(key)`,
`put(key, value)` with structural key equality, no eviction and no TTL.  The
cache is an association list whose newest entry wins. -/
def cacheGet : List (CacheKey × β) → CacheKey → Option β
  | [], _ => none
  | (k, v) :: rest, key => if key = k then some v else cacheGet rest key

/-- Modelled from the spec: `cache.put(key, value)` (spec section 4.4). -/
def cachePut (c : List (CacheKey × β)) (key : CacheKey) (v : β) :
    List (CacheKey × β) :=
  (key, v) :: c

/-- The shared mutable state `execute` touches: the process-wide result cache
and a counter of backing-query executions (the spec's observability side
channel for spec section 8's idempotence property). -/
structure ExecState (α : Type) where
  cache : List (CacheKey × (Nat × List α))
  backing_queries : Nat
deriving Repr

/-- An `Executor` instance (lines 20-28): its `SearchConfig` plus the Python
object identity `id(self.config)` of that config instance. -/
structure Executor (α : Type) where
  config : SearchConfig α
  config_id : Nat

/-- The cache key computed at line 35 for one `execute` invocation. -/
def cacheKey (ex : Executor α) (query_text : String) (page page_size : Int) :
    CacheKey :=
  ⟨ex.config_id, query_text, page, page_size⟩

/-- Embeds `Executor.execute` (lines 30-60).  Each of `.all()` (line 47) and
`db.session.execute(count_statement)` (line 56) increments the
backing-query counter; a raised exception propagates with the state reached
so far. -/
def Executor.execute (ex : Executor α) (query_text : String)
    (page page_size : Int) (st : ExecState α) :
    Except PyErr (Nat × List α) × ExecState α :=
  let key := cacheKey ex query_text page page_size
  match cacheGet st.cache key with
  | some v => (Except.ok v, st)
  | none =>
    let search_query := parse query_text
    match prepare_db_query ex.config
        ex.config.create_filter_query.optionsLazyload search_query true with
    | Except.error e => (Except.error e, st)
    | Except.ok filter_query =>
      let entities :=
        ((filter_query.offset ((page - 1) * page_size)).limit page_size).all
      let st1 : ExecState α :=
        { st with backing_queries := st.backing_queries + 1 }
      match prepare_db_query ex.config
          ex.config.create_count_query.optionsLazyload search_query false with
      | Except.error e => (Except.error e, st1)
      | Except.ok count_query =>
        let count := countScalar count_query
        let st2 : ExecState α :=
          { st1 with backing_queries := st1.backing_queries + 1 }
        let ret := (count, entities)
        (Except.ok ret, { st2 with cache := cachePut st2.cache key ret })

/-- A config is well-formed when every configured sort column carries
`Ascending` or `Descending` as its default direction (spec section 3: each
sortable column has "a configured default direction"; the two relative values
`Default` and `NegatedDefault` only make sense on tokens). -/
def WfSortColumns (cfg : SearchConfig α) : Prop :=
  ∀ name column default_direction,
    dictLookup cfg.sort_columns name = some (column, default_direction) →
      default_direction = SortDirection.Ascending ∨
        default_direction = SortDirection.Descending

/-- The ORDER BY clauses one sort token contributes: none when its name is
unknown or when the resolved direction is not ascending or descending, and
one clause otherwise. -/
def resolvedOrder (cfg : SearchConfig α) (token : SortToken) :
    List (ColumnOrder α) :=
  match dictLookup cfg.sort_columns token.name with
  | none => []
  | some (column, default_direction) =>
    match get_direction token.direction default_direction with
    | some SortDirection.Ascending => [ColumnOrder.asc column]
    | some SortDirection.Descending => [ColumnOrder.desc column]
    | _ => []

/-- The ORDER BY clauses a list of sort tokens contributes, in listed order. -/
def resolvedOrders (cfg : SearchConfig α) : List SortToken → List (ColumnOrder α)
  | [] => []
  | token :: rest => resolvedOrder cfg token ++ resolvedOrders cfg rest

/-- A dataset of 150 entities (ids 1 to 150) behind a config with no filters,
for the end-to-end pagination scenario of spec section 8. -/
def pagingConfig : SearchConfig Nat :=
  { anonymous_filter := none
    named_filters := []
    special_filters := []
    sort_columns := []
    finalize_query := id
    create_filter_query := ⟨List.range' 1 150, [], false, 0, none⟩
    create_count_query := ⟨List.range' 1 150, [], false, 0, none⟩ }

/-- An executor over `pagingConfig`. -/
def pagingExecutor : Executor Nat :=
  ⟨pagingConfig, 1⟩

/-- A second executor instance over a config with exactly the same content as
`pagingConfig` but a different object identity. -/
def pagingExecutorCopy : Executor Nat :=
  ⟨pagingConfig, 7⟩

/-- A config whose `named_filters` hold keys `user` and `tag` in unsorted
insertion order, for the unknown-named-token scenario of spec section 8. -/
def namedKeysConfig : SearchConfig Nat :=
  { anonymous_filter := some (fun q _ _ => q)
    named_filters := [("user", fun q _ _ => q), ("tag", fun q _ _ => q)]
    special_filters := []
    sort_columns := []
    finalize_query := id
    create_filter_query := ⟨[], [], false, 0, none⟩
    create_count_query := ⟨[], [], false, 0, none⟩ }

/-- An executor over `namedKeysConfig`. -/
def namedKeysExecutor : Executor Nat :=
  ⟨namedKeysConfig, 2⟩

/-- The `name` column of the four-entity multi-key sort scenario. -/
def nameColumn : Nat → Int
  | 1 => 2
  | 2 => 1
  | 3 => 1
  | _ => 2

/-- The `date` column of the four-entity multi-key sort scenario. -/
def dateColumn : Nat → Int
  | 1 => 1
  | 2 => 2
  | 3 => 1
  | _ => 2

/-- A config with sortable columns `name` (default ascending) and `date`
(default descending) over entities 1 to 4, for the multi-key sort scenario of
spec section 8. -/
def multiSortConfig : SearchConfig Nat :=
  { anonymous_filter := none
    named_filters := []
    special_filters := []
    sort_columns := [("name", (nameColumn, SortDirection.Ascending)),
                     ("date", (dateColumn, SortDirection.Descending))]
    finalize_query := id
    create_filter_query := ⟨[1, 2, 3, 4], [], false, 0, none⟩
    create_count_query := ⟨[1, 2, 3, 4], [], false, 0, none⟩ }

/-- An executor over `multiSortConfig`. -/
def multiSortExecutor : Executor Nat :=
  ⟨multiSortConfig, 3⟩

theorem charListLe_iff_le : ∀ as bs : List Char, charListLe as bs = true ↔ as ≤ bs
  | [], bs => iff_of_true rfl List.nil_le
  | a :: as, [] => by
    refine iff_of_false (by simp [charListLe]) ?_
    rw [← not_lt]
    exact fun h => h (List.nil_lt_cons a as)
  | a :: as, b :: bs => by
    rcases lt_trichotomy a b with hab | hab | hab
    · refine iff_of_true ?_ ?_
      · simp [charListLe, hab]
      · rw [← not_lt]
        intro h
        cases h with
        | cons h' => exact absurd hab (lt_irrefl a)
        | rel h' => exact absurd hab (asymm h')
    · subst hab
      have : charListLe (a :: as) (a :: bs) = charListLe as bs := by
        simp [charListLe]
      rw [this, charListLe_iff_le as bs, ← not_lt, ← not_lt]
      constructor
      · intro h hlex
        cases hlex with
        | cons h' => exact h h'
        | rel h' => exact absurd h' (lt_irrefl a)
      · intro h hlex
        exact h (List.Lex.cons hlex)
    · refine iff_of_false ?_ ?_
      · have h1 : ¬ a < b := asymm hab
        simp [charListLe, h1, hab]
      · rw [← not_lt]
        intro h
        exact h (List.Lex.rel hab)

theorem strLe_iff_le (a b : String) : strLe a b = true ↔ a ≤ b := by
  rw [String.le_iff_toList_le]
  exact charListLe_iff_le a.toList b.toList

theorem format_dict_keys_sorted (source : List (String × β)) :
    List.Sorted (· ≤ ·) (format_dict_keys source) := by
  letI : IsTotal String (fun a b => strLe a b = true) := by
    constructor
    intro a b
    rcases le_total a b with h | h
    · exact Or.inl ((strLe_iff_le a b).mpr h)
    · exact Or.inr ((strLe_iff_le b a).mpr h)
  letI : IsTrans String (fun a b => strLe a b = true) := by
    constructor
    intro a b c hab hbc
    exact (strLe_iff_le a c).mpr
      (le_trans ((strLe_iff_le a b).mp hab) ((strLe_iff_le b c).mp hbc))
  exact (List.sorted_insertionSort _ (dictKeys source)).imp
    (fun h => (strLe_iff_le _ _).mp h)

theorem format_dict_keys_perm (source : List (String × β)) :
    List.Perm (format_dict_keys source) (dictKeys source) :=
  List.perm_insertionSort _ (dictKeys source)

theorem applyAnonymousTokens_ok_iff (cfg : SearchConfig α) (q : DBQuery α)
    (ts : List AnonymousToken) :
    (∃ r, applyAnonymousTokens cfg q ts = Except.ok r) ↔
      (ts = [] ∨ cfg.anonymous_filter ≠ none) := by
  induction ts generalizing q with
  | nil => simp [applyAnonymousTokens]
  | cons t ts ih =>
    cases hf : cfg.anonymous_filter with
    | none => simp [applyAnonymousTokens, hf]
    | some f => simp [applyAnonymousTokens, hf, ih]

theorem applyAnonymousTokens_error (cfg : SearchConfig α) (q : DBQuery α)
    (ts : List AnonymousToken) (e : PyErr)
    (h : applyAnonymousTokens cfg q ts = Except.error e) :
    e = PyErr.searchError anonymous_token_error_msg := by
  induction ts generalizing q with
  | nil => simp [applyAnonymousTokens] at h
  | cons t ts ih =>
    cases hf : cfg.anonymous_filter with
    | none =>
      rw [applyAnonymousTokens, hf] at h
      cases h
      rfl
    | some f =>
      rw [applyAnonymousTokens, hf] at h
      exact ih _ h

theorem applyNamedTokens_ok_iff (cfg : SearchConfig α) (q : DBQuery α)
    (ts : List NamedToken) :
    (∃ r, applyNamedTokens cfg q ts = Except.ok r) ↔
      ∀ t ∈ ts, dictLookup cfg.named_filters t.name ≠ none := by
  induction ts generalizing q with
  | nil => simp [applyNamedTokens]
  | cons t ts ih =>
    cases hf : dictLookup cfg.named_filters t.name with
    | none => simp [applyNamedTokens, hf]
    | some f => simp [applyNamedTokens, hf, ih, List.forall_mem_cons]

theorem applyNamedTokens_error (cfg : SearchConfig α) (q : DBQuery α)
    (ts : List NamedToken) (e : PyErr)
    (h : applyNamedTokens cfg q ts = Except.error e) :
    ∃ msg, e = PyErr.searchError msg := by
  induction ts generalizing q with
  | nil => simp [applyNamedTokens] at h
  | cons t ts ih =>
    cases hf : dictLookup cfg.named_filters t.name with
    | none =>
      rw [applyNamedTokens, hf] at h
      cases h
      exact ⟨_, rfl⟩
    | some f =>
      rw [applyNamedTokens, hf] at h
      exact ih _ h

theorem applySpecialTokens_ok_iff (cfg : SearchConfig α) (q : DBQuery α)
    (ts : List SpecialToken) :
    (∃ r, applySpecialTokens cfg q ts = Except.ok r) ↔
      ∀ t ∈ ts, dictLookup cfg.special_filters t.value ≠ none := by
  induction ts generalizing q with
  | nil => simp [applySpecialTokens]
  | cons t ts ih =>
    cases hf : dictLookup cfg.special_filters t.value with
    | none => simp [applySpecialTokens, hf]
    | some f => simp [applySpecialTokens, hf, ih, List.forall_mem_cons]

theorem applySpecialTokens_error (cfg : SearchConfig α) (q : DBQuery α)
    (ts : List SpecialToken) (e : PyErr)
    (h : applySpecialTokens cfg q ts = Except.error e) :
    ∃ msg, e = PyErr.searchError msg := by
  induction ts generalizing q with
  | nil => simp [applySpecialTokens] at h
  | cons t ts ih =>
    cases hf : dictLookup cfg.special_filters t.value with
    | none =>
      rw [applySpecialTokens, hf] at h
      cases h
      exact ⟨_, rfl⟩
    | some f =>
      rw [applySpecialTokens, hf] at h
      exact ih _ h

theorem get_direction_ne_none (direction default_direction : SortDirection)
    (h : default_direction = SortDirection.Ascending ∨
      default_direction = SortDirection.Descending) :
    get_direction direction default_direction ≠ none := by
  rcases h with rfl | rfl <;> cases direction <;> simp [get_direction]

theorem applySortTokens_ok_iff (cfg : SearchConfig α)
    (hwf : WfSortColumns cfg) (q : DBQuery α) (ts : List SortToken) :
    (∃ r, applySortTokens cfg q ts = Except.ok r) ↔
      ∀ t ∈ ts, dictLookup cfg.sort_columns t.name ≠ none := by
  induction ts generalizing q with
  | nil => simp [applySortTokens]
  | cons t ts ih =>
    cases hf : dictLookup cfg.sort_columns t.name with
    | none => simp [applySortTokens, hf]
    | some cd =>
      obtain ⟨column, dd⟩ := cd
      cases hg : get_direction t.direction dd with
      | none => exact absurd hg (get_direction_ne_none _ _ (hwf _ _ _ hf))
      | some d => simp [applySortTokens, hf, hg, ih, List.forall_mem_cons]

theorem applySortTokens_error (cfg : SearchConfig α)
    (hwf : WfSortColumns cfg) (q : DBQuery α) (ts : List SortToken) (e : PyErr)
    (h : applySortTokens cfg q ts = Except.error e) :
    ∃ msg, e = PyErr.searchError msg := by
  induction ts generalizing q with
  | nil => simp [applySortTokens] at h
  | cons t ts ih =>
    cases hf : dictLookup cfg.sort_columns t.name with
    | none =>
      rw [applySortTokens, hf] at h
      cases h
      exact ⟨_, rfl⟩
    | some cd =>
      obtain ⟨column, dd⟩ := cd
      cases hg : get_direction t.direction dd with
      | none => exact absurd hg (get_direction_ne_none _ _ (hwf _ _ _ hf))
      | some d =>
        rw [applySortTokens, hf] at h
        simp only [hg] at h
        exact ih _ h

theorem applySortTokens_ok_append (cfg : SearchConfig α) (q : DBQuery α)
    (ts : List SortToken)
    (h : ∀ t ∈ ts, ∃ column default_direction,
      dictLookup cfg.sort_columns t.name = some (column, default_direction) ∧
        get_direction t.direction default_direction ≠ none) :
    applySortTokens cfg q ts =
      Except.ok { q with order := q.order ++ resolvedOrders cfg ts } := by
  induction ts generalizing q with
  | nil => simp [applySortTokens, resolvedOrders]
  | cons t ts ih =>
    obtain ⟨column, dd, hf, hg⟩ := h t (List.mem_cons_self t ts)
    cases hgd : get_direction t.direction dd with
    | none => exact absurd hgd hg
    | some d =>
      rw [applySortTokens, hf]
      simp only [hgd]
      rw [ih _ (fun t' ht' => h t' (List.mem_cons_of_mem _ ht'))]
      cases d <;>
        simp [resolvedOrders, resolvedOrder, hf, hgd, DBQuery.orderBy,
          List.append_assoc]

theorem prepare_eq_of_anon_error (cfg : SearchConfig α) (q : DBQuery α)
    (sq : SearchQuery) (use_sort : Bool) (e : PyErr)
    (h1 : applyAnonymousTokens cfg q sq.anonymous_tokens = Except.error e) :
    prepare_db_query cfg q sq use_sort = Except.error e := by
  simp [prepare_db_query, h1]

theorem prepare_eq_of_named_error (cfg : SearchConfig α) (q : DBQuery α)
    (sq : SearchQuery) (use_sort : Bool) (q1 : DBQuery α) (e : PyErr)
    (h1 : applyAnonymousTokens cfg q sq.anonymous_tokens = Except.ok q1)
    (h2 : applyNamedTokens cfg q1 sq.named_tokens = Except.error e) :
    prepare_db_query cfg q sq use_sort = Except.error e := by
  simp [prepare_db_query, h1, h2]

theorem prepare_eq_of_special_error (cfg : SearchConfig α) (q : DBQuery α)
    (sq : SearchQuery) (use_sort : Bool) (q1 q2 : DBQuery α) (e : PyErr)
    (h1 : applyAnonymousTokens cfg q sq.anonymous_tokens = Except.ok q1)
    (h2 : applyNamedTokens cfg q1 sq.named_tokens = Except.ok q2)
    (h3 : applySpecialTokens cfg q2 sq.special_tokens = Except.error e) :
    prepare_db_query cfg q sq use_sort = Except.error e := by
  simp [prepare_db_query, h1, h2, h3]

theorem prepare_eq_of_sort_error (cfg : SearchConfig α) (q : DBQuery α)
    (sq : SearchQuery) (q1 q2 q3 : DBQuery α) (e : PyErr)
    (h1 : applyAnonymousTokens cfg q sq.anonymous_tokens = Except.ok q1)
    (h2 : applyNamedTokens cfg q1 sq.named_tokens = Except.ok q2)
    (h3 : applySpecialTokens cfg q2 sq.special_tokens = Except.ok q3)
    (h4 : applySortTokens cfg q3 sq.sort_tokens = Except.error e) :
    prepare_db_query cfg q sq true = Except.error e := by
  simp [prepare_db_query, h1, h2, h3, h4]

theorem prepare_eq_ok_false (cfg : SearchConfig α) (q : DBQuery α)
    (sq : SearchQuery) (q1 q2 q3 : DBQuery α)
    (h1 : applyAnonymousTokens cfg q sq.anonymous_tokens = Except.ok q1)
    (h2 : applyNamedTokens cfg q1 sq.named_tokens = Except.ok q2)
    (h3 : applySpecialTokens cfg q2 sq.special_tokens = Except.ok q3) :
    prepare_db_query cfg q sq false = Except.ok (cfg.finalize_query q3) := by
  simp [prepare_db_query, h1, h2, h3]

theorem prepare_eq_ok_true (cfg : SearchConfig α) (q : DBQuery α)
    (sq : SearchQuery) (q1 q2 q3 q4 : DBQuery α)
    (h1 : applyAnonymousTokens cfg q sq.anonymous_tokens = Except.ok q1)
    (h2 : applyNamedTokens cfg q1 sq.named_tokens = Except.ok q2)
    (h3 : applySpecialTokens cfg q2 sq.special_tokens = Except.ok q3)
    (h4 : applySortTokens cfg q3 sq.sort_tokens = Except.ok q4) :
    prepare_db_query cfg q sq true = Except.ok (cfg.finalize_query q4) := by
  simp [prepare_db_query, h1, h2, h3, h4]

theorem prepare_db_query_ok_iff (cfg : SearchConfig α)
    (hwf : WfSortColumns cfg) (q : DBQuery α) (sq : SearchQuery)
    (use_sort : Bool) :
    (∃ r, prepare_db_query cfg q sq use_sort = Except.ok r) ↔
      ((sq.anonymous_tokens = [] ∨ cfg.anonymous_filter ≠ none) ∧
       (∀ t ∈ sq.named_tokens, dictLookup cfg.named_filters t.name ≠ none) ∧
       (∀ t ∈ sq.special_tokens, dictLookup cfg.special_filters t.value ≠ none) ∧
       (use_sort = true →
         ∀ t ∈ sq.sort_tokens, dictLookup cfg.sort_columns t.name ≠ none)) := by
  cases h1 : applyAnonymousTokens cfg q sq.anonymous_tokens with
  | error e =>
    have hc1 : ¬ (sq.anonymous_tokens = [] ∨ cfg.anonymous_filter ≠ none) := by
      rw [← applyAnonymousTokens_ok_iff cfg q]
      simp [h1]
    refine iff_of_false ?_ (fun hc => hc1 hc.1)
    rw [prepare_eq_of_anon_error cfg q sq use_sort e h1]
    simp
  | ok q1 =>
    have hc1 : sq.anonymous_tokens = [] ∨ cfg.anonymous_filter ≠ none :=
      (applyAnonymousTokens_ok_iff cfg q _).mp ⟨q1, h1⟩
    cases h2 : applyNamedTokens cfg q1 sq.named_tokens with
    | error e =>
      have hc2 : ¬ ∀ t ∈ sq.named_tokens,
          dictLookup cfg.named_filters t.name ≠ none := by
        rw [← applyNamedTokens_ok_iff cfg q1]
        simp [h2]
      refine iff_of_false ?_ (fun hc => hc2 hc.2.1)
      rw [prepare_eq_of_named_error cfg q sq use_sort q1 e h1 h2]
      simp
    | ok q2 =>
      have hc2 : ∀ t ∈ sq.named_tokens,
          dictLookup cfg.named_filters t.name ≠ none :=
        (applyNamedTokens_ok_iff cfg q1 _).mp ⟨q2, h2⟩
      cases h3 : applySpecialTokens cfg q2 sq.special_tokens with
      | error e =>
        have hc3 : ¬ ∀ t ∈ sq.special_tokens,
            dictLookup cfg.special_filters t.value ≠ none := by
          rw [← applySpecialTokens_ok_iff cfg q2]
          simp [h3]
        refine iff_of_false ?_ (fun hc => hc3 hc.2.2.1)
        rw [prepare_eq_of_special_error cfg q sq use_sort q1 q2 e h1 h2 h3]
        simp
      | ok q3 =>
        have hc3 : ∀ t ∈ sq.special_tokens,
            dictLookup cfg.special_filters t.value ≠ none :=
          (applySpecialTokens_ok_iff cfg q2 _).mp ⟨q3, h3⟩
        cases use_sort with
        | false =>
          refine iff_of_true
            ⟨cfg.finalize_query q3, prepare_eq_ok_false cfg q sq q1 q2 q3 h1 h2 h3⟩
            ⟨hc1, hc2, hc3, by simp⟩
        | true =>
          cases h4 : applySortTokens cfg q3 sq.sort_tokens with
          | error e =>
            have hc4 : ¬ ∀ t ∈ sq.sort_tokens,
                dictLookup cfg.sort_columns t.name ≠ none := by
              rw [← applySortTokens_ok_iff cfg hwf q3]
              simp [h4]
            refine iff_of_false ?_ (fun hc => hc4 (hc.2.2.2 rfl))
            rw [prepare_eq_of_sort_error cfg q sq q1 q2 q3 e h1 h2 h3 h4]
            simp
          | ok q4 =>
            have hc4 : ∀ t ∈ sq.sort_tokens,
                dictLookup cfg.sort_columns t.name ≠ none :=
              (applySortTokens_ok_iff cfg hwf q3 _).mp ⟨q4, h4⟩
            refine iff_of_true
              ⟨cfg.finalize_query q4,
                prepare_eq_ok_true cfg q sq q1 q2 q3 q4 h1 h2 h3 h4⟩
              ⟨hc1, hc2, hc3, fun _ => hc4⟩

theorem prepare_db_query_error (cfg : SearchConfig α)
    (hwf : WfSortColumns cfg) (q : DBQuery α) (sq : SearchQuery)
    (use_sort : Bool) (e : PyErr)
    (h : prepare_db_query cfg q sq use_sort = Except.error e) :
    ∃ msg, e = PyErr.searchError msg := by
  cases h1 : applyAnonymousTokens cfg q sq.anonymous_tokens with
  | error e1 =>
    rw [prepare_eq_of_anon_error cfg q sq use_sort e1 h1] at h
    cases h
    exact ⟨_, applyAnonymousTokens_error cfg q _ _ h1⟩
  | ok q1 =>
    cases h2 : applyNamedTokens cfg q1 sq.named_tokens with
    | error e2 =>
      rw [prepare_eq_of_named_error cfg q sq use_sort q1 e2 h1 h2] at h
      cases h
      exact applyNamedTokens_error cfg q1 _ _ h2
    | ok q2 =>
      cases h3 : applySpecialTokens cfg q2 sq.special_tokens with
      | error e3 =>
        rw [prepare_eq_of_special_error cfg q sq use_sort q1 q2 e3 h1 h2 h3] at h
        cases h
        exact applySpecialTokens_error cfg q2 _ _ h3
      | ok q3 =>
        cases use_sort with
        | false =>
          rw [prepare_eq_ok_false cfg q sq q1 q2 q3 h1 h2 h3] at h
          cases h
        | true =>
          cases h4 : applySortTokens cfg q3 sq.sort_tokens with
          | error e4 =>
            rw [prepare_eq_of_sort_error cfg q sq q1 q2 q3 e4 h1 h2 h3 h4] at h
            cases h
            exact applySortTokens_error cfg hwf q3 _ _ h4
          | ok q4 =>
            rw [prepare_eq_ok_true cfg q sq q1 q2 q3 q4 h1 h2 h3 h4] at h
            cases h

/-- If the sorting pass over a query succeeds, the sort-free pass over any
query succeeds too: the error checks of the first three token loops depend
only on the tokens and the config, never on the query being decorated. -/
theorem prepare_db_query_false_ok (cfg : SearchConfig α) (q q' : DBQuery α)
    (sq : SearchQuery) (r : DBQuery α)
    (h : prepare_db_query cfg q sq true = Except.ok r) :
    ∃ r', prepare_db_query cfg q' sq false = Except.ok r' := by
  cases h1 : applyAnonymousTokens cfg q sq.anonymous_tokens with
  | error e1 => rw [prepare_eq_of_anon_error cfg q sq true e1 h1] at h; cases h
  | ok q1 =>
    cases h2 : applyNamedTokens cfg q1 sq.named_tokens with
    | error e2 =>
      rw [prepare_eq_of_named_error cfg q sq true q1 e2 h1 h2] at h
      cases h
    | ok q2 =>
      cases h3 : applySpecialTokens cfg q2 sq.special_tokens with
      | error e3 =>
        rw [prepare_eq_of_special_error cfg q sq true q1 q2 e3 h1 h2 h3] at h
        cases h
      | ok q3 =>
        have hc1 : sq.anonymous_tokens = [] ∨ cfg.anonymous_filter ≠ none :=
          (applyAnonymousTokens_ok_iff cfg q _).mp ⟨q1, h1⟩
        have hc2 := (applyNamedTokens_ok_iff cfg q1 _).mp ⟨q2, h2⟩
        have hc3 := (applySpecialTokens_ok_iff cfg q2 _).mp ⟨q3, h3⟩
        obtain ⟨r1, hr1⟩ :=
          (applyAnonymousTokens_ok_iff cfg q' sq.anonymous_tokens).mpr hc1
        obtain ⟨r2, hr2⟩ :=
          (applyNamedTokens_ok_iff cfg r1 sq.named_tokens).mpr hc2
        obtain ⟨r3, hr3⟩ :=
          (applySpecialTokens_ok_iff cfg r2 sq.special_tokens).mpr hc3
        exact ⟨cfg.finalize_query r3,
          prepare_eq_ok_false cfg q' sq r1 r2 r3 hr1 hr2 hr3⟩

theorem execute_eq_of_hit (ex : Executor α) (query_text : String)
    (page page_size : Int) (st : ExecState α) (v : Nat × List α)
    (h : cacheGet st.cache (cacheKey ex query_text page page_size) = some v) :
    ex.execute query_text page page_size st = (Except.ok v, st) := by
  simp [Executor.execute, h]

theorem execute_eq_of_filter_error (ex : Executor α) (query_text : String)
    (page page_size : Int) (st : ExecState α) (e : PyErr)
    (hmiss : cacheGet st.cache (cacheKey ex query_text page page_size) = none)
    (hp : prepare_db_query ex.config
      ex.config.create_filter_query.optionsLazyload (parse query_text) true =
        Except.error e) :
    ex.execute query_text page page_size st = (Except.error e, st) := by
  simp [Executor.execute, hmiss, hp]

theorem execute_eq_ok (ex : Executor α) (query_text : String)
    (page page_size : Int) (st : ExecState α) (fq cq : DBQuery α)
    (hmiss : cacheGet st.cache (cacheKey ex query_text page page_size) = none)
    (hp : prepare_db_query ex.config
      ex.config.create_filter_query.optionsLazyload (parse query_text) true =
        Except.ok fq)
    (hc : prepare_db_query ex.config
      ex.config.create_count_query.optionsLazyload (parse query_text) false =
        Except.ok cq) :
    ex.execute query_text page page_size st =
      (Except.ok (countScalar cq,
          ((fq.offset ((page - 1) * page_size)).limit page_size).all),
        ⟨cachePut st.cache (cacheKey ex query_text page page_size)
          (countScalar cq,
            ((fq.offset ((page - 1) * page_size)).limit page_size).all),
          st.backing_queries + 1 + 1⟩) := by
  simp [Executor.execute, hmiss, hp, hc]

/-- Claim C1: `execute` raises a `SearchError` exactly when the parsed query
contains (a) an anonymous token while `config.anonymous_filter` is absent,
(b) a named token whose name is not a key of `config.named_filters`, (c) a
special token whose value is not a key of `config.special_filters`, or (d) a
sort token whose name is not a key of `config.sort_columns`; for every query
whose tokens all resolve against the config, no `SearchError` is raised.
Stated for a fresh execution (the cache has no entry for this key) over a
config whose sort columns carry ascending or descending defaults. -/
theorem c1_execute_search_error_iff (ex : Executor α) (query_text : String)
    (page page_size : Int) (st : ExecState α)
    (hmiss : cacheGet st.cache (cacheKey ex query_text page page_size) = none)
    (hwf : WfSortColumns ex.config) :
    (∃ msg, (ex.execute query_text page page_size st).fst =
        Except.error (PyErr.searchError msg)) ↔
      (((parse query_text).anonymous_tokens ≠ [] ∧
          ex.config.anonymous_filter = none) ∨
       (∃ t ∈ (parse query_text).named_tokens,
          dictLookup ex.config.named_filters t.name = none) ∨
       (∃ t ∈ (parse query_text).special_tokens,
          dictLookup ex.config.special_filters t.value = none) ∨
       (∃ t ∈ (parse query_text).sort_tokens,
          dictLookup ex.config.sort_columns t.name = none)) := by
  cases hp : prepare_db_query ex.config
      ex.config.create_filter_query.optionsLazyload (parse query_text) true with
  | error e =>
    obtain ⟨msg, rfl⟩ := prepare_db_query_error ex.config hwf _ _ true e hp
    refine iff_of_true
      ⟨msg, by rw [execute_eq_of_filter_error ex query_text page page_size st
        _ hmiss hp]⟩ ?_
    have hnok : ¬ ∃ r, prepare_db_query ex.config
        ex.config.create_filter_query.optionsLazyload (parse query_text) true =
          Except.ok r := by
      simp [hp]
    rw [prepare_db_query_ok_iff ex.config hwf _ _ true] at hnok
    by_contra hR
    push_neg at hR
    obtain ⟨hR1, hR2, hR3, hR4⟩ := hR
    exact hnok ⟨or_iff_not_imp_left.mpr hR1, hR2, hR3, fun _ => hR4⟩
  | ok fq =>
    obtain ⟨cq, hc⟩ := prepare_db_query_false_ok ex.config _
      ex.config.create_count_query.optionsLazyload _ fq hp
    have hL : (ex.execute query_text page page_size st).fst =
        Except.ok (countScalar cq,
          ((fq.offset ((page - 1) * page_size)).limit page_size).all) := by
      rw [execute_eq_ok ex query_text page page_size st fq cq hmiss hp hc]
    obtain ⟨hc1, hc2, hc3, hc4⟩ :=
      (prepare_db_query_ok_iff ex.config hwf _ _ true).mp ⟨fq, hp⟩
    refine iff_of_false ?_ ?_
    · rintro ⟨msg, hmsg⟩
      rw [hL] at hmsg
      cases hmsg
    · rintro (⟨hne, hnone⟩ | ⟨t, ht, hl⟩ | ⟨t, ht, hl⟩ | ⟨t, ht, hl⟩)
      · rcases hc1 with h | h
        · exact hne h
        · exact h hnone
      · exact hc2 t ht hl
      · exact hc3 t ht hl
      · exact hc4 rfl t ht hl

/-- Witness for C1: an unknown named token `foo:bar` against the
`user`/`tag` config makes a fresh execution raise a `SearchError`. -/
theorem c1_execute_search_error_iff_witness :
    (∃ msg, (namedKeysExecutor.execute "foo:bar" 1 100 ⟨[], 0⟩).fst =
        Except.error (PyErr.searchError msg)) ↔
      (((parse "foo:bar").anonymous_tokens ≠ [] ∧
          namedKeysExecutor.config.anonymous_filter = none) ∨
       (∃ t ∈ (parse "foo:bar").named_tokens,
          dictLookup namedKeysExecutor.config.named_filters t.name = none) ∨
       (∃ t ∈ (parse "foo:bar").special_tokens,
          dictLookup namedKeysExecutor.config.special_filters t.value = none) ∨
       (∃ t ∈ (parse "foo:bar").sort_tokens,
          dictLookup namedKeysExecutor.config.sort_columns t.name = none)) :=
  c1_execute_search_error_iff namedKeysExecutor "foo:bar" 1 100 ⟨[], 0⟩ rfl
    (fun name column dd h => by simp [namedKeysExecutor, namedKeysConfig,
      dictLookup] at h)

theorem length_all_le_lim (q : DBQuery α) (l : Int) (h : q.lim = some l) :
    q.all.length ≤ l.toNat := by
  simp only [DBQuery.all, h]
  exact List.length_take_le _ _

/-- Claim C2: for every valid `page ≥ 1` and `page_size ∈ [1,100]` and a
fresh execution over a fixed dataset, `execute` fetches the page using offset
`(page-1)*page_size` and limit `page_size`, so it returns at most `page_size`
entities; for a dataset of 150 entities, the empty query, `page=2` and
`page_size=100`, it returns entities 101-150 (50 entities) with
`total=150`. -/
theorem c2_pagination (ex : Executor α) (query_text : String)
    (page page_size : Int) (st : ExecState α)
    (hmiss : cacheGet st.cache (cacheKey ex query_text page page_size) = none)
    (hpage : 1 ≤ page) (hsize : 1 ≤ page_size ∧ page_size ≤ 100)
    (count : Nat) (entities : List α)
    (hok : (ex.execute query_text page page_size st).fst =
      Except.ok (count, entities)) :
    (∃ fq, prepare_db_query ex.config
        ex.config.create_filter_query.optionsLazyload (parse query_text) true =
          Except.ok fq ∧
      entities = ((fq.offset ((page - 1) * page_size)).limit page_size).all) ∧
    entities.length ≤ page_size.toNat ∧
    (pagingExecutor.execute "" 2 100 ⟨[], 0⟩).fst =
      Except.ok (150, List.range' 101 50) := by
  cases hp : prepare_db_query ex.config
      ex.config.create_filter_query.optionsLazyload (parse query_text) true with
  | error e =>
    rw [execute_eq_of_filter_error ex query_text page page_size st e hmiss hp]
      at hok
    cases hok
  | ok fq =>
    obtain ⟨cq, hc⟩ := prepare_db_query_false_ok ex.config _
      ex.config.create_count_query.optionsLazyload _ fq hp
    rw [execute_eq_ok ex query_text page page_size st fq cq hmiss hp hc] at hok
    cases hok
    refine ⟨⟨fq, rfl, rfl⟩, ?_, rfl⟩
    exact length_all_le_lim _ page_size rfl

/-- Witness for C2: the 150-entity dataset, empty query, page 2 of size 100.
The second page holds entities 101-150 and the total stays 150. -/
theorem c2_pagination_witness :
    (∃ fq, prepare_db_query pagingExecutor.config
        pagingExecutor.config.create_filter_query.optionsLazyload (parse "")
          true = Except.ok fq ∧
      List.range' 101 50 = ((fq.offset ((2 - 1) * 100)).limit 100).all) ∧
    (List.range' 101 50).length ≤ (100 : Int).toNat ∧
    (pagingExecutor.execute "" 2 100 ⟨[], 0⟩).fst =
      Except.ok (150, List.range' 101 50) :=
  c2_pagination pagingExecutor "" 2 100 ⟨[], 0⟩ rfl (by decide)
    ⟨by decide, by decide⟩ 150 (List.range' 101 50) rfl

/-- Claim C3: a cache hit returns the stored result with the shared state
wholly untouched (so no parsing, validation or backing queries happen); a
fresh successful execution runs exactly two backing queries and writes
exactly one cache entry; calling `execute` twice with identical
`(config, query_text, page, page_size)` and unchanged dataset returns the
identical result, the second call served from cache with no further
effects. -/
theorem c3_cache_idempotence (ex : Executor α) (query_text : String)
    (page page_size : Int) (st : ExecState α) :
    (∀ v, cacheGet st.cache (cacheKey ex query_text page page_size) = some v →
      ex.execute query_text page page_size st = (Except.ok v, st)) ∧
    (cacheGet st.cache (cacheKey ex query_text page page_size) = none →
      ∀ v st', ex.execute query_text page page_size st = (Except.ok v, st') →
        st'.backing_queries = st.backing_queries + 2 ∧
        st'.cache = (cacheKey ex query_text page page_size, v) :: st.cache) ∧
    (∀ v st', ex.execute query_text page page_size st = (Except.ok v, st') →
      ex.execute query_text page page_size st' = (Except.ok v, st')) := by
  refine ⟨fun v h => execute_eq_of_hit ex query_text page page_size st v h,
    ?_, ?_⟩
  · intro hmiss v st' h
    cases hp : prepare_db_query ex.config
        ex.config.create_filter_query.optionsLazyload (parse query_text)
        true with
    | error e =>
      rw [execute_eq_of_filter_error ex query_text page page_size st e hmiss
        hp] at h
      cases h
    | ok fq =>
      obtain ⟨cq, hc⟩ := prepare_db_query_false_ok ex.config _
        ex.config.create_count_query.optionsLazyload _ fq hp
      rw [execute_eq_ok ex query_text page page_size st fq cq hmiss hp hc] at h
      cases h
      exact ⟨rfl, rfl⟩
  · intro v st' h
    cases hget : cacheGet st.cache (cacheKey ex query_text page page_size) with
    | some w =>
      rw [execute_eq_of_hit ex query_text page page_size st w hget] at h
      cases h
      exact execute_eq_of_hit ex query_text page page_size st _ hget
    | none =>
      cases hp : prepare_db_query ex.config
          ex.config.create_filter_query.optionsLazyload (parse query_text)
          true with
      | error e =>
        rw [execute_eq_of_filter_error ex query_text page page_size st e hget
          hp] at h
        cases h
      | ok fq =>
        obtain ⟨cq, hc⟩ := prepare_db_query_false_ok ex.config _
          ex.config.create_count_query.optionsLazyload _ fq hp
        rw [execute_eq_ok ex query_text page page_size st fq cq hget hp hc]
          at h
        cases h
        apply execute_eq_of_hit
        simp [cacheGet, cachePut]

/-- Witness for C3: re-running the 150-entity scenario from the state the
first run produced returns the identical result and leaves the state
unchanged. -/
theorem c3_cache_idempotence_witness :
    pagingExecutor.execute "" 2 100
        ⟨[(⟨1, "", 2, 100⟩, (150, List.range' 101 50))], 2⟩ =
      (Except.ok (150, List.range' 101 50),
        ⟨[(⟨1, "", 2, 100⟩, (150, List.range' 101 50))], 2⟩) :=
  (c3_cache_idempotence pagingExecutor "" 2 100 ⟨[], 0⟩).2.2
    (150, List.range' 101 50)
    ⟨[(⟨1, "", 2, 100⟩, (150, List.range' 101 50))], 2⟩ rfl

/-- Claim C4: the count side of `execute` builds its query independently from
`config.create_count_query()`, applies the same anonymous/named/special
filters and `finalize_query` but no sort tokens, collapses it to a count
projection with ordering cleared, and executes it to a scalar, so the
returned total equals the number of entities matching the filters,
independent of `page` and `page_size`. -/
theorem c4_count_independent (ex : Executor α) (query_text : String)
    (page page_size : Int) (st : ExecState α)
    (hmiss : cacheGet st.cache (cacheKey ex query_text page page_size) = none)
    (count : Nat) (entities : List α)
    (hok : (ex.execute query_text page page_size st).fst =
      Except.ok (count, entities)) :
    (∃ cq, prepare_db_query ex.config
        ex.config.create_count_query.optionsLazyload (parse query_text) false =
          Except.ok cq ∧
      count = cq.rows.length) ∧
    (∀ (q : DBQuery α) (sq : SearchQuery),
      prepare_db_query ex.config q sq false =
        prepare_db_query ex.config q
          ⟨sq.anonymous_tokens, sq.named_tokens, sq.special_tokens, []⟩
          false) ∧
    (∀ q : DBQuery α, countScalar { q with order := [] } = countScalar q) ∧
    (∀ (page' page_size' : Int) (st' : ExecState α) (count' : Nat)
        (entities' : List α),
      cacheGet st'.cache (cacheKey ex query_text page' page_size') = none →
      (ex.execute query_text page' page_size' st').fst =
        Except.ok (count', entities') →
      count' = count) := by
  cases hp : prepare_db_query ex.config
      ex.config.create_filter_query.optionsLazyload (parse query_text) true with
  | error e =>
    rw [execute_eq_of_filter_error ex query_text page page_size st e hmiss hp]
      at hok
    cases hok
  | ok fq =>
    obtain ⟨cq, hc⟩ := prepare_db_query_false_ok ex.config _
      ex.config.create_count_query.optionsLazyload _ fq hp
    rw [execute_eq_ok ex query_text page page_size st fq cq hmiss hp hc] at hok
    cases hok
    refine ⟨⟨cq, hc, rfl⟩, fun q sq => rfl, fun q => rfl, ?_⟩
    intro page' page_size' st' count' entities' hmiss' hok'
    rw [execute_eq_ok ex query_text page' page_size' st' fq cq hmiss' hp hc]
      at hok'
    cases hok'
    rfl

/-- Witness for C4: in the 150-entity scenario the total is the count-query
row count; a fresh run at page 1 with page size 7 reports the same total as
the fresh run at page 2 with page size 100. -/
theorem c4_count_independent_witness :
    (∃ cq, prepare_db_query pagingExecutor.config
        pagingExecutor.config.create_count_query.optionsLazyload (parse "")
          false = Except.ok cq ∧
      150 = cq.rows.length) ∧
    (∀ (q : DBQuery Nat) (sq : SearchQuery),
      prepare_db_query pagingExecutor.config q sq false =
        prepare_db_query pagingExecutor.config q
          ⟨sq.anonymous_tokens, sq.named_tokens, sq.special_tokens, []⟩
          false) ∧
    (∀ q : DBQuery Nat, countScalar { q with order := [] } = countScalar q) ∧
    (∀ (page' page_size' : Int) (st' : ExecState Nat) (count' : Nat)
        (entities' : List Nat),
      cacheGet st'.cache (cacheKey pagingExecutor "" page' page_size') = none →
      (pagingExecutor.execute "" page' page_size' st').fst =
        Except.ok (count', entities') →
      count' = 150) :=
  c4_count_independent pagingExecutor "" 2 100 ⟨[], 0⟩ rfl 150
    (List.range' 101 50) rfl

/-- Claim C5: sort-direction resolution maps `Default` to the column's
configured default, `NegatedDefault` to its flip, and an explicit
`Ascending`/`Descending` to itself regardless of the configured default. -/
theorem c5_get_direction_resolution :
    get_direction SortDirection.Default SortDirection.Ascending =
        some SortDirection.Ascending ∧
    get_direction SortDirection.NegatedDefault SortDirection.Ascending =
        some SortDirection.Descending ∧
    get_direction SortDirection.Default SortDirection.Descending =
        some SortDirection.Descending ∧
    get_direction SortDirection.NegatedDefault SortDirection.Descending =
        some SortDirection.Ascending ∧
    (∀ d, get_direction SortDirection.Ascending d =
        some SortDirection.Ascending) ∧
    (∀ d, get_direction SortDirection.Descending d =
        some SortDirection.Descending) := by
  refine ⟨rfl, rfl, rfl, rfl, ?_, ?_⟩ <;> intro d <;> cases d <;> rfl

/-- Claim C6: sort-direction resolution is total - for every token direction
paired with a configured default that is `Ascending` or `Descending`, it
yields exactly `Ascending` or `Descending` and never reaches the failing
assertion branch (modelled as `none`). -/
theorem c6_get_direction_total (direction default_direction : SortDirection)
    (h : default_direction = SortDirection.Ascending ∨
      default_direction = SortDirection.Descending) :
    ∃ r, get_direction direction default_direction = some r ∧
      (r = SortDirection.Ascending ∨ r = SortDirection.Descending) := by
  rcases h with rfl | rfl <;> cases direction
  · exact ⟨SortDirection.Ascending, rfl, Or.inl rfl⟩
  · exact ⟨SortDirection.Descending, rfl, Or.inr rfl⟩
  · exact ⟨SortDirection.Ascending, rfl, Or.inl rfl⟩
  · exact ⟨SortDirection.Descending, rfl, Or.inr rfl⟩
  · exact ⟨SortDirection.Ascending, rfl, Or.inl rfl⟩
  · exact ⟨SortDirection.Descending, rfl, Or.inr rfl⟩
  · exact ⟨SortDirection.Descending, rfl, Or.inr rfl⟩
  · exact ⟨SortDirection.Ascending, rfl, Or.inl rfl⟩

/-- Witness for C6: resolving `NegatedDefault` against an ascending default
succeeds with a concrete direction. -/
theorem c6_get_direction_total_witness :
    ∃ r, get_direction SortDirection.NegatedDefault SortDirection.Ascending =
        some r ∧
      (r = SortDirection.Ascending ∨ r = SortDirection.Descending) :=
  c6_get_direction_total SortDirection.NegatedDefault SortDirection.Ascending
    (Or.inl rfl)

/-- Claim C7: every unknown-token `SearchError` message embeds the list of
valid names for that token category produced by `_format_dict_keys`, which is
the lexicographically sorted permutation of the configured keys; in
particular the unknown named token `foo:bar` against a config whose
`named_filters` keys are `user` and `tag` fails with a message listing
exactly `['tag', 'user']` in sorted order. -/
theorem c7_unknown_token_messages (cfg : SearchConfig α) (q : DBQuery α)
    (tn : NamedToken) (restN : List NamedToken)
    (tsp : SpecialToken) (restS : List SpecialToken)
    (tso : SortToken) (restO : List SortToken)
    (hn : dictLookup cfg.named_filters tn.name = none)
    (hs : dictLookup cfg.special_filters tsp.value = none)
    (ho : dictLookup cfg.sort_columns tso.name = none) :
    (List.Sorted (· ≤ ·) (format_dict_keys cfg.named_filters) ∧
      List.Perm (format_dict_keys cfg.named_filters)
        (dictKeys cfg.named_filters) ∧
      List.Sorted (· ≤ ·) (format_dict_keys cfg.special_filters) ∧
      List.Perm (format_dict_keys cfg.special_filters)
        (dictKeys cfg.special_filters) ∧
      List.Sorted (· ≤ ·) (format_dict_keys cfg.sort_columns) ∧
      List.Perm (format_dict_keys cfg.sort_columns)
        (dictKeys cfg.sort_columns)) ∧
    applyNamedTokens cfg q (tn :: restN) = Except.error (PyErr.searchError
      (unknown_named_token_msg tn.name (format_dict_keys cfg.named_filters))) ∧
    applySpecialTokens cfg q (tsp :: restS) = Except.error (PyErr.searchError
      (unknown_special_token_msg tsp.value
        (format_dict_keys cfg.special_filters))) ∧
    applySortTokens cfg q (tso :: restO) = Except.error (PyErr.searchError
      (unknown_sort_token_msg tso.name (format_dict_keys cfg.sort_columns))) ∧
    (namedKeysExecutor.execute "foo:bar" 1 100 ⟨[], 0⟩).fst =
      Except.error (PyErr.searchError
        "Unknown named token: 'foo'. Available named tokens: ['tag', 'user'].")
    := by
  refine ⟨⟨format_dict_keys_sorted _, format_dict_keys_perm _,
    format_dict_keys_sorted _, format_dict_keys_perm _,
    format_dict_keys_sorted _, format_dict_keys_perm _⟩, ?_, ?_, ?_, rfl⟩
  · rw [applyNamedTokens, hn]
  · rw [applySpecialTokens, hs]
  · rw [applySortTokens, ho]

/-- Witness for C7: the `foo:bar` scenario against the `user`/`tag` config,
whose special filters and sort columns are empty. -/
theorem c7_unknown_token_messages_witness :
    (List.Sorted (· ≤ ·) (format_dict_keys namedKeysConfig.named_filters) ∧
      List.Perm (format_dict_keys namedKeysConfig.named_filters)
        (dictKeys namedKeysConfig.named_filters) ∧
      List.Sorted (· ≤ ·) (format_dict_keys namedKeysConfig.special_filters) ∧
      List.Perm (format_dict_keys namedKeysConfig.special_filters)
        (dictKeys namedKeysConfig.special_filters) ∧
      List.Sorted (· ≤ ·) (format_dict_keys namedKeysConfig.sort_columns) ∧
      List.Perm (format_dict_keys namedKeysConfig.sort_columns)
        (dictKeys namedKeysConfig.sort_columns)) ∧
    applyNamedTokens namedKeysConfig ⟨[], [], false, 0, none⟩
        [⟨"foo", "bar", false⟩] = Except.error (PyErr.searchError
      (unknown_named_token_msg "foo"
        (format_dict_keys namedKeysConfig.named_filters))) ∧
    applySpecialTokens namedKeysConfig ⟨[], [], false, 0, none⟩
        [⟨"fav", false⟩] = Except.error (PyErr.searchError
      (unknown_special_token_msg "fav"
        (format_dict_keys namedKeysConfig.special_filters))) ∧
    applySortTokens namedKeysConfig ⟨[], [], false, 0, none⟩
        [⟨"age", SortDirection.Default, false⟩] =
      Except.error (PyErr.searchError
        (unknown_sort_token_msg "age"
          (format_dict_keys namedKeysConfig.sort_columns))) ∧
    (namedKeysExecutor.execute "foo:bar" 1 100 ⟨[], 0⟩).fst =
      Except.error (PyErr.searchError
        "Unknown named token: 'foo'. Available named tokens: ['tag', 'user'].")
    :=
  c7_unknown_token_messages namedKeysConfig ⟨[], [], false, 0, none⟩
    ⟨"foo", "bar", false⟩ [] ⟨"fav", false⟩ []
    ⟨"age", SortDirection.Default, false⟩ [] rfl rfl rfl

/-- Claim C8: sort tokens are applied to the filter query in listed order as
a multi-key sort - the accumulated ORDER BY list appends one resolved clause
per token in token order, each resolved through its own column's configured
default; the query `sort:name sort:date` over the four-entity dataset orders
primarily by `name` (default ascending) with ties broken by `date` (default
descending). -/
theorem c8_multi_key_sort (cfg : SearchConfig α) (q : DBQuery α)
    (ts : List SortToken)
    (h : ∀ t ∈ ts, ∃ column default_direction,
      dictLookup cfg.sort_columns t.name = some (column, default_direction) ∧
        get_direction t.direction default_direction ≠ none) :
    applySortTokens cfg q ts =
      Except.ok { q with order := q.order ++ resolvedOrders cfg ts } ∧
    (∃ fq, prepare_db_query multiSortConfig
        multiSortConfig.create_filter_query.optionsLazyload
        (parse "sort:name sort:date") true = Except.ok fq ∧
      fq.order = [ColumnOrder.asc nameColumn, ColumnOrder.desc dateColumn]) ∧
    (multiSortExecutor.execute "sort:name sort:date" 1 100 ⟨[], 0⟩).fst =
      Except.ok (4, [2, 3, 4, 1]) := by
  exact ⟨applySortTokens_ok_append cfg q ts h,
    ⟨⟨[1, 2, 3, 4],
      [ColumnOrder.asc nameColumn, ColumnOrder.desc dateColumn],
      true, 0, none⟩, rfl, rfl⟩, rfl⟩

/-- Witness for C8: the `sort:name sort:date` scenario, with both tokens
resolving against `multiSortConfig`. -/
theorem c8_multi_key_sort_witness :
    applySortTokens multiSortConfig ⟨[1, 2, 3, 4], [], false, 0, none⟩
        [⟨"name", SortDirection.Default, false⟩,
         ⟨"date", SortDirection.Default, false⟩] =
      Except.ok { (⟨[1, 2, 3, 4], [], false, 0, none⟩ : DBQuery Nat) with
        order := [] ++ resolvedOrders multiSortConfig
          [⟨"name", SortDirection.Default, false⟩,
           ⟨"date", SortDirection.Default, false⟩] } ∧
    (∃ fq, prepare_db_query multiSortConfig
        multiSortConfig.create_filter_query.optionsLazyload
        (parse "sort:name sort:date") true = Except.ok fq ∧
      fq.order = [ColumnOrder.asc nameColumn, ColumnOrder.desc dateColumn]) ∧
    (multiSortExecutor.execute "sort:name sort:date" 1 100 ⟨[], 0⟩).fst =
      Except.ok (4, [2, 3, 4, 1]) :=
  c8_multi_key_sort multiSortConfig ⟨[1, 2, 3, 4], [], false, 0, none⟩
    [⟨"name", SortDirection.Default, false⟩,
     ⟨"date", SortDirection.Default, false⟩]
    (by
      intro t ht
      simp only [List.mem_cons, List.not_mem_nil, or_false] at ht
      rcases ht with rfl | rfl
      · exact ⟨nameColumn, SortDirection.Ascending, rfl, by decide⟩
      · exact ⟨dateColumn, SortDirection.Descending, rfl, by decide⟩)

/-- Claim C9: the cache key is the composite
`(config identity, query_text, page, page_size)`: two keys are equal exactly
when all four components are equal, where the config component compares by
instance identity, so two distinct config instances - even with identical
content - never collide on a cache entry. -/
theorem c9_cache_key_structural (ex ex' : Executor α)
    (query_text query_text' : String) (page page' page_size page_size' : Int) :
    (cacheKey ex query_text page page_size =
        cacheKey ex' query_text' page' page_size' ↔
      (ex.config_id = ex'.config_id ∧ query_text = query_text' ∧
        page = page' ∧ page_size = page_size')) ∧
    (∀ v : Nat × List α, ex.config_id ≠ ex'.config_id →
      cacheGet [(cacheKey ex query_text page page_size, v)]
        (cacheKey ex' query_text' page' page_size') = none) := by
  constructor
  · simp [cacheKey, CacheKey.mk.injEq]
  · intro v hne
    have hk : cacheKey ex' query_text' page' page_size' ≠
        cacheKey ex query_text page page_size := by
      simp [cacheKey, CacheKey.mk.injEq]
      intro h
      exact absurd h.symm hne
    simp [cacheGet, hk]

/-- Witness for C9: two executors over configs with identical content but
different identities never share a cache entry for the same query. -/
theorem c9_cache_key_structural_witness :
    cacheGet [(cacheKey pagingExecutor "" 2 100, (150, List.range' 101 50))]
      (cacheKey pagingExecutorCopy "" 2 100) = none :=
  (c9_cache_key_structural pagingExecutor pagingExecutorCopy "" "" 2 2 100
    100).2 (150, List.range' 101 50) (by decide)

/-- Claim C10: failed executions are never memoized - when `execute` raises a
`SearchError` it does so before any backing query and before the cache write,
so the shared state is left exactly as it was, and a subsequent call with the
same arguments re-parses, re-validates and raises the same error instead of
returning a cached result. -/
theorem c10_errors_not_memoized (ex : Executor α) (query_text : String)
    (page page_size : Int) (st : ExecState α) (e : PyErr)
    (h : (ex.execute query_text page page_size st).fst = Except.error e) :
    ex.execute query_text page page_size st = (Except.error e, st) ∧
    ex.execute query_text page page_size
        ((ex.execute query_text page page_size st).snd) =
      (Except.error e, st) := by
  cases hget : cacheGet st.cache (cacheKey ex query_text page page_size) with
  | some w =>
    rw [execute_eq_of_hit ex query_text page page_size st w hget] at h
    cases h
  | none =>
    cases hp : prepare_db_query ex.config
        ex.config.create_filter_query.optionsLazyload (parse query_text)
        true with
    | error e0 =>
      have heq := execute_eq_of_filter_error ex query_text page page_size st
        e0 hget hp
      rw [heq] at h
      cases h
      exact ⟨heq, by rw [heq]; exact heq⟩
    | ok fq =>
      obtain ⟨cq, hc⟩ := prepare_db_query_false_ok ex.config _
        ex.config.create_count_query.optionsLazyload _ fq hp
      rw [execute_eq_ok ex query_text page page_size st fq cq hget hp hc] at h
      cases h

/-- Witness for C10: an anonymous token against a config with no anonymous
filter errors and leaves the empty state untouched, and rerunning from the
returned state raises the same error again. -/
theorem c10_errors_not_memoized_witness :
    pagingExecutor.execute "hello" 1 100 ⟨[], 0⟩ =
      (Except.error (PyErr.searchError
        "Anonymous tokens are not valid in this context."), ⟨[], 0⟩) ∧
    pagingExecutor.execute "hello" 1 100
        ((pagingExecutor.execute "hello" 1 100 ⟨[], 0⟩).snd) =
      (Except.error (PyErr.searchError
        "Anonymous tokens are not valid in this context."), ⟨[], 0⟩) :=
  c10_errors_not_memoized pagingExecutor "hello" 1 100 ⟨[], 0⟩
    (PyErr.searchError "Anonymous tokens are not valid in this context.") rfl

end Szurubooru
